import Mathlib

/-!
# FormatWave — verification of the session-scoped batch conversion pipeline

Shallow embedding of the FormatWave web service (`src/app.py`,
`src/converters/__init__.py`, `src/converters/image_converter.py`,
`src/converters/pdf_converter.py`) and proofs about it.

External collaborators (Pillow codecs, PyMuPDF rasterization, Flask routing,
the OS filesystem) are modelled abstractly: a converter's behaviour on a
given file's bytes is an oracle attached to the file, a document is its page
count, the filesystem is a list of paths or entries.  All orchestration
logic (validation order, per-file error policy, output naming, archive
building, cleanup sweeping, path joining) is translated directly from the
source.
-/

namespace FormatWave

/-! ## Converter registry (`src/converters/__init__.py`) -/

/-- The seven distinct converter functions imported by the registry. -/
inductive ConverterFn where
  | pdfToPng
  | webpToPng
  | pngToWebp
  | pngToJpg
  | jpgToPng
  | bmpToPng
  | tiffToPng
deriving DecidableEq, Repr

/-- `CONVERTERS` dict lookup: maps (from_format, to_format) to a converter
function.  The dict literal of `converters/__init__.py` lines 18-28 has
pairwise-distinct keys, so its lookup is this decision chain. -/
def convertersGet (k : String × String) : Option ConverterFn :=
  if k = ("pdf", "png") then some .pdfToPng
  else if k = ("webp", "png") then some .webpToPng
  else if k = ("png", "webp") then some .pngToWebp
  else if k = ("png", "jpg") then some .pngToJpg
  else if k = ("jpg", "png") then some .jpgToPng
  else if k = ("jpeg", "png") then some .jpgToPng
  else if k = ("bmp", "png") then some .bmpToPng
  else if k = ("tiff", "png") then some .tiffToPng
  else if k = ("tif", "png") then some .tiffToPng
  else none

/-- One entry of `CONVERSION_OPTIONS` (display-only fields `icon` and
`description` omitted; no claim mentions them). -/
structure ConversionOption where
  id : String
  fromLabel : String
  toLabel : String
  from_ext : List String
  to_ext : String
deriving DecidableEq, Repr

/-- `CONVERSION_OPTIONS` list, `converters/__init__.py` lines 31-39. -/
def CONVERSION_OPTIONS : List ConversionOption :=
  [ ⟨"pdf-to-png", "PDF", "PNG", ["pdf"], "png"⟩,
    ⟨"webp-to-png", "WebP", "PNG", ["webp"], "png"⟩,
    ⟨"png-to-webp", "PNG", "WebP", ["png"], "webp"⟩,
    ⟨"png-to-jpg", "PNG", "JPG", ["png"], "jpg"⟩,
    ⟨"jpg-to-png", "JPG", "PNG", ["jpg", "jpeg"], "png"⟩,
    ⟨"bmp-to-png", "BMP", "PNG", ["bmp"], "png"⟩,
    ⟨"tiff-to-png", "TIFF", "PNG", ["tiff", "tif"], "png"⟩ ]

/-- `get_accepted_extensions` (`converters/__init__.py` lines 48-53):
first option whose id matches, else the empty list. -/
def get_accepted_extensions (conversion_id : String) : List String :=
  match CONVERSION_OPTIONS.find? (fun o => o.id = conversion_id) with
  | some o => o.from_ext
  | none => []

/-- `get_target_extension` (`converters/__init__.py` lines 56-61). -/
def get_target_extension (conversion_id : String) : String :=
  match CONVERSION_OPTIONS.find? (fun o => o.id = conversion_id) with
  | some o => o.to_ext
  | none => ""

/-! ## Converter lookup with synonym fallback (`src/app.py` lines 100-110) -/

/-- The converter resolution of `convert_files`: exact registry lookup, then
the alternate-extension fallback (`jpg` retries as `jpeg`, `tiff` retries as
`tif`). -/
def lookupConverter (from_format to_format : String) : Option ConverterFn :=
  match convertersGet (from_format, to_format) with
  | some c => some c
  | none =>
    if from_format = "jpg" then convertersGet ("jpeg", to_format)
    else if from_format = "tiff" then convertersGet ("tif", to_format)
    else none

/-- Modelled from the spec (§4.1): synonym resolution **in both directions**
("jpg" ↔ "jpeg", "tiff" ↔ "tif") before reporting not-found.  Used only to
compare with `lookupConverter`. -/
def synonymOf (s : String) : Option String :=
  if s = "jpg" then some "jpeg"
  else if s = "jpeg" then some "jpg"
  else if s = "tiff" then some "tif"
  else if s = "tif" then some "tiff"
  else none

/-- Modelled from the spec (§4.1): lookup with bidirectional synonym
fallback. -/
def lookupConverterSpec (from_format to_format : String) : Option ConverterFn :=
  match convertersGet (from_format, to_format) with
  | some c => some c
  | none =>
    match synonymOf from_format with
    | some s => convertersGet (s, to_format)
    | none => none

/-! ## Python string helpers -/

/-- Python `str.split(sep)` on character lists.  Non-overlapping,
left-to-right; the fuel argument (instantiated with the input length) only
makes the recursion structural and is never exhausted. -/
def splitAux (sep : List Char) : Nat → List Char → List Char → List (List Char)
  | _, acc, [] => [acc.reverse]
  | 0, acc, xs => [acc.reverse ++ xs]
  | fuel+1, acc, x :: xs =>
    if sep.isPrefixOf (x :: xs) then
      acc.reverse :: splitAux sep fuel [] ((x :: xs).drop sep.length)
    else
      splitAux sep fuel (x :: acc) xs

/-- Python `s.split(sep)` for a non-empty separator. -/
def pySplit (sep : String) (s : String) : List String :=
  (splitAux sep.data s.data.length [] s.data).map String.mk

/-- ASCII lowercase of one character (`str.lower` restricted to ASCII, which
is all the pipeline ever lowercases: format tags and file extensions). -/
def charLower (c : Char) : Char :=
  if 'A' ≤ c ∧ c ≤ 'Z' then Char.ofNat (c.toNat + 32) else c

/-- Python `s.lower()`. -/
def pyLower (s : String) : String := String.mk (s.data.map charLower)

/-- Python `str.strip()` (no argument): remove leading and trailing
whitespace. -/
def pyStrip (s : String) : String :=
  String.mk (((s.data.dropWhile Char.isWhitespace).reverse.dropWhile
    Char.isWhitespace).reverse)

/-- Parsing of `conversion_id` in `convert_files` (`app.py` lines 93-98):
split on `"-to-"`, require exactly two parts, lowercase both. -/
def parseConversionId (conversion_id : String) : Option (String × String) :=
  match pySplit "-to-" conversion_id with
  | [a, b] => some (pyLower a, pyLower b)
  | _ => none

/-! ## Path helpers used by the pipeline -/

/-- `Path(filename).name`: the last slash-separated component (empty
components from duplicate or trailing slashes dropped, as pathlib does). -/
def pathName (filename : String) : String :=
  (((pySplit "/" filename).filter (fun c => c ≠ "")).getLast?).getD ""

/-- `Path(name).suffix` on a name: `name[i:]` where `i` is the index of the
last dot, provided `0 < i < len(name) - 1`; otherwise the empty string. -/
def pathSuffix (name : String) : String :=
  let cs := name.data
  match cs.reverse.findIdx? (fun c => c = '.') with
  | none => ""
  | some j =>
    let i := cs.length - 1 - j
    if 0 < i ∧ i < cs.length - 1 then String.mk (cs.drop i) else ""

/-- Python `s.lstrip(".")`: drop every leading dot. -/
def lstripDots (s : String) : String :=
  String.mk (s.data.dropWhile (fun c => c = '.'))

/-- `Path(file.filename).suffix.lower().lstrip(".")`, `app.py` line 138. -/
def extOf (filename : String) : String :=
  lstripDots (pyLower (pathSuffix (pathName filename)))

/-- The extension test of `app.py` line 139: a file is rejected iff the
accepted-extension list is non-empty (truthy) and does not contain the
file's extension. -/
def extensionRejected (accepted_exts : List String) (file_ext : String) : Bool :=
  !accepted_exts.isEmpty && !(accepted_exts.contains file_ext)

/-! ## Batch conversion pipeline (`app.py` `convert_files`, lines 79-207)

The converter call `converter(str(upload_path), str(session_output_dir))`
runs external codec code on the uploaded bytes; it is modelled as an oracle
attached to the uploaded file: either a list of produced output paths or a
raised exception message. -/

/-- What the selected converter does on one uploaded file's bytes. -/
inductive ConvOutcome where
  | success (outputs : List String)
  | failure (msg : String)
deriving DecidableEq, Repr

/-- One entry of `request.files.getlist("files")`, together with its
conversion oracle. -/
structure UploadedFile where
  filename : String
  size : Nat
  outcome : ConvOutcome
deriving DecidableEq, Repr

/-- The kinds of per-file error messages appended to `errors`. -/
inductive FileError where
  | invalidExtension (ext : String) (expected : List String)
  | fileTooLarge
  | conversionFailure (msg : String)
deriving DecidableEq, Repr

/-- One entry of the `errors` list (`filename` plus `error`). -/
structure ErrorEntry where
  filename : String
  error : FileError
deriving DecidableEq, Repr

/-- One entry of the `results` list; only the fields the claims count are
kept (`original_name` and the output's `file_id`). -/
structure ResultEntry where
  original_name : String
  file_id : String
deriving DecidableEq, Repr

/-- Aggregated effect of processing files: the `results` list, the `errors`
list, and the uploaded copies still persisted in the session upload
directory afterwards (saved names keep the original filename; the random
`uuid` prefix is abstracted away). -/
structure FileOutcomes where
  results : List ResultEntry
  errors : List ErrorEntry
  persisted : List String
deriving DecidableEq, Repr

/-- Concatenation of outcomes, in processing order. -/
def FileOutcomes.append (a b : FileOutcomes) : FileOutcomes :=
  ⟨a.results ++ b.results, a.errors ++ b.errors, a.persisted ++ b.persisted⟩

/-- `MAX_FILE_SIZE`, `app.py` line 25. -/
def MAX_FILE_SIZE : Nat := 50 * 1024 * 1024

/-- `MAX_FILES_PER_BATCH`, `app.py` line 26. -/
def MAX_FILES_PER_BATCH : Nat := 20

/-- `CLEANUP_AGE_SECONDS`, `app.py` line 27. -/
def CLEANUP_AGE_SECONDS : Int := 3600

/-- The body of the per-file loop of `convert_files` (lines 133-198): skip
empty filenames; reject extensions not in a non-empty allowlist; save, then
delete and reject files over the size limit; otherwise run the converter,
appending one result entry per output path on success and one error entry on
exception.  A converter exception does not delete the saved upload. -/
def stepFile (accepted_exts : List String) (f : UploadedFile) : FileOutcomes :=
  if f.filename = "" then ⟨[], [], []⟩
  else
    let ext := extOf f.filename
    if extensionRejected accepted_exts ext then
      ⟨[], [⟨f.filename, .invalidExtension ext accepted_exts⟩], []⟩
    else if f.size > MAX_FILE_SIZE then
      ⟨[], [⟨f.filename, .fileTooLarge⟩], []⟩
    else
      match f.outcome with
      | .success outs =>
        ⟨outs.map (fun o => ⟨f.filename, pathName o⟩), [], [f.filename]⟩
      | .failure msg =>
        ⟨[], [⟨f.filename, .conversionFailure msg⟩], [f.filename]⟩

/-- The per-file loop over the whole batch, in upload order. -/
def processFiles (accepted_exts : List String) : List UploadedFile → FileOutcomes
  | [] => ⟨[], [], []⟩
  | f :: fs => (stepFile accepted_exts f).append (processFiles accepted_exts fs)

/-- Batch-level rejections of `convert_files`, in source order
(lines 88-118). -/
inductive BatchError where
  | missingConversionId
  | invalidConversionId
  | unsupportedConversion
  | emptyBatch
  | tooManyFiles
deriving DecidableEq, Repr

/-- `convert_files` (`app.py` lines 79-207): batch-level validation in
source order — missing id, malformed id, unknown converter, empty batch
(`not files or all(f.filename == "")`), too many files — then the per-file
loop. -/
def convert_files (conversion_id : String) (files : List UploadedFile) :
    Except BatchError FileOutcomes :=
  let cid := pyStrip conversion_id
  if cid = "" then .error .missingConversionId
  else
    match parseConversionId cid with
    | none => .error .invalidConversionId
    | some (from_format, to_format) =>
      match lookupConverter from_format to_format with
      | none => .error .unsupportedConversion
      | some _converter =>
        if files.isEmpty ∨ files.all (fun f => f.filename = "") then
          .error .emptyBatch
        else if files.length > MAX_FILES_PER_BATCH then
          .error .tooManyFiles
        else
          .ok (processFiles (get_accepted_extensions cid) files)

/-! ## PDF converter (`src/converters/pdf_converter.py`)

Rasterization is external (PyMuPDF); a document is modelled by its page
count, and `convert_pdf_to_png` by the list of output filenames it produces,
in loop order.  Every page is rendered with the same `fitz.Matrix(zoom,
zoom)` where `zoom = dpi / 72`. -/

/-- Python `f"{n:03d}"`: decimal, left-padded with zeros to width 3. -/
def pad3 (n : Nat) : String :=
  String.mk (List.replicate (3 - (toString n).length) '0') ++ toString n

/-- `f"{input_path.stem}_page_{page_num + 1:03d}.png"` for a 1-based page
number (`pdf_converter.py` line 47). -/
def pdfPageFilename (stem : String) (pageNum : Nat) : String :=
  stem ++ "_page_" ++ pad3 pageNum ++ ".png"

/-- The output filenames of `convert_pdf_to_png` on a document with
`numPages` pages: `for page_num in range(len(doc))`, one PNG per page,
appended in document order (lines 40-51). -/
def convert_pdf_to_png (stem : String) (numPages : Nat) : List String :=
  (List.range numPages).map (fun page_num => pdfPageFilename stem (page_num + 1))

/-- `zoom = dpi / 72` (`pdf_converter.py` line 36). -/
def pdfZoom (dpi : ℚ) : ℚ := dpi / 72

/-- Default rendering resolution (`dpi: int = 200`, line 12). -/
def DEFAULT_DPI : ℚ := 200

/-! ## Image converter transparency policy
(`src/converters/image_converter.py`, `_convert_image` lines 32-58)

Pixel data is external; the embedding records which color-mode operation the
branch structure performs on a source of a given Pillow mode. -/

/-- Pillow image modes relevant to `_convert_image`. -/
inductive ImageMode where
  | bilevel
  | L
  | LA
  | P
  | PA
  | RGB
  | RGBA
  | CMYK
deriving DecidableEq, Repr

/-- A source image as `_convert_image` observes it: its mode and whether
`'transparency' in img.info` (a palette transparency index). -/
structure SrcImage where
  mode : ImageMode
  transparencyInfo : Bool
deriving DecidableEq, Repr

/-- What the JPEG branch does to the source. -/
inductive JpegNormalization where
  | whiteComposite
  | directRGB
deriving DecidableEq, Repr

/-- The `target_format == 'JPEG'` branch (lines 35-48): for modes RGBA, LA,
PA, P a white RGB background is created and P is first converted to RGBA;
then only a source now in mode RGBA or LA is pasted onto the background with
its alpha as mask, while anything else (i.e. PA) falls to a plain
`convert('RGB')`, as do all modes outside the first test. -/
def jpegNormalize (img : SrcImage) : JpegNormalization :=
  if img.mode = .RGBA ∨ img.mode = .LA ∨ img.mode = .PA ∨ img.mode = .P then
    let m := if img.mode = .P then ImageMode.RGBA else img.mode
    if m = .RGBA ∨ m = .LA then .whiteComposite else .directRGB
  else .directRGB

/-- The `target_format in ('PNG', 'WEBP')` branch (lines 49-54): channel
count of the mode the source is converted to (RGBA = 4, RGB = 3). -/
def pngWebpChannels (img : SrcImage) : Nat :=
  if img.mode = .RGBA ∨ img.mode = .LA ∨ img.mode = .PA ∨
      (img.mode = .P ∧ img.transparencyInfo) then 4 else 3

/-- Modelled from the spec (§4.2): "the source carries any transparency
information (direct alpha channel, or a palette with a transparency
index)". -/
def carriesTransparency (img : SrcImage) : Bool :=
  img.mode = .RGBA ∨ img.mode = .LA ∨ img.mode = .PA ∨
    (img.mode = .P ∧ img.transparencyInfo)

/-- Modelled from the spec (§4.2): claimed JPEG-target policy — composite
over white exactly when the source has transparency.  Used only to compare
with `jpegNormalize`. -/
def jpegNormalizeSpec (img : SrcImage) : JpegNormalization :=
  if carriesTransparency img then .whiteComposite else .directRGB

/-! ## Cleanup sweeper (`app.py` `cleanup_old_files`, lines 41-58) -/

/-- One top-level entry of an upload/converted root as the sweeper sees it:
its name, last-modified time, whether it is a directory (`rmtree` vs
`unlink`), and whether the stat-and-delete attempt succeeds (`deleteOk =
false` models the exception swallowed by the per-entry `try`). -/
structure FsEntry where
  name : String
  mtime : Int
  isDir : Bool
  deleteOk : Bool
deriving DecidableEq, Repr

/-- One sweep of one directory: each entry independently has its deletion
attempted iff its age exceeds `CLEANUP_AGE_SECONDS`; a raised exception is
swallowed and the entry survives.  Returns the surviving entries and the
names whose deletion was attempted, both in directory order. -/
def sweepDir (now : Int) : List FsEntry → List FsEntry × List String
  | [] => ([], [])
  | e :: rest =>
    let s := sweepDir now rest
    if now - e.mtime > CLEANUP_AGE_SECONDS then
      if e.deleteOk then (s.1, e.name :: s.2)
      else (e :: s.1, e.name :: s.2)
    else (e :: s.1, s.2)

/-- The sweeper's infinite `while True` loop, truncated to any finite prefix
of wakeup times: each cycle sweeps the upload root then the converted root.
Totality of this function for every cycle count reflects that no per-entry
failure terminates the loop. -/
def sweeper (upload conv : List FsEntry) : List Int → List FsEntry × List FsEntry
  | [] => (upload, conv)
  | t :: ts => sweeper (sweepDir t upload).1 (sweepDir t conv).1 ts

/-! ## Archive builder (`app.py` `download_all`, lines 228-247) -/

/-- An entry of a session output directory (`is_file` distinguishes regular
files, the only things written into the zip). -/
structure DirEntry where
  name : String
  isFile : Bool
deriving DecidableEq, Repr

/-- The converted root: the per-session directories and the zip files that
`download_all` writes next to them (at the top level of `CONVERTED_DIR`,
*not* inside any session directory). -/
structure ConvertedRoot where
  sessions : List (String × List DirEntry)
  rootFiles : List String
deriving DecidableEq, Repr

/-- Directory lookup for a session id. -/
def ConvertedRoot.findSession (r : ConvertedRoot) (sid : String) :
    Option (List DirEntry) :=
  (r.sessions.find? (fun s => s.1 = sid)).map (fun s => s.2)

/-- `f"FormatWave_{session_id}.zip"`, line 236. -/
def zipFilename (sid : String) : String := "FormatWave_" ++ sid ++ ".zip"

/-- `download_all`: 404 when the session directory does not exist; otherwise
open the zip at `CONVERTED_DIR / zip_filename` in mode `"w"` (truncating any
previous archive of the same name) and write every regular file of the
session directory into it flat, under its bare name.  Returns the new root
state and the archive member list. -/
def download_all (r : ConvertedRoot) (sid : String) :
    Except Unit (ConvertedRoot × List String) :=
  match r.findSession sid with
  | none => .error ()
  | some entries =>
    let members := (entries.filter (fun e => e.isFile)).map (fun e => e.name)
    let zn := zipFilename sid
    .ok ({ r with rootFiles := zn :: r.rootFiles.erase zn }, members)

/-! ## Preview/download path construction (`app.py` lines 210-225) -/

/-- POSIX resolution of `.` and `..` in a component list: what the OS does
to the path the handler constructs before touching the filesystem. -/
def resolveComponents (comps : List String) : List String :=
  comps.foldl
    (fun acc c =>
      if c = "" ∨ c = "." then acc
      else if c = ".." then acc.dropLast
      else acc ++ [c]) []

/-- `BASE_DIR` as a component list. -/
def BASE_DIR_PATH : List String := ["app"]

/-- `CONVERTED_DIR = BASE_DIR / "converted"`, line 22. -/
def CONVERTED_DIR_PATH : List String := BASE_DIR_PATH ++ ["converted"]

/-- `preview_file`/`download_file` (lines 210-225): build
`CONVERTED_DIR / session_id / filename` with no sanitization of either
component, and serve the file at the resolved path iff it exists (else
404).  `fs` is the set of existing files. -/
def servedPath (fs : List (List String)) (session_id filename : String) :
    Option (List String) :=
  let p := resolveComponents (CONVERTED_DIR_PATH ++ [session_id, filename])
  if p ∈ fs then some p else none

/-- Whether a resolved path lies inside the converted-files root. -/
def insideConvertedRoot (p : List String) : Bool :=
  CONVERTED_DIR_PATH.isPrefixOf p

/-! ## Concrete inputs used by counterexamples and witnesses -/

/-- A single uploaded two-page PDF whose conversion succeeds. -/
def c1File : UploadedFile :=
  ⟨"doc.pdf", 100, .success ["x_page_001.png", "x_page_002.png"]⟩

/-- One convertible JPG plus one file with a rejected extension. -/
def c1wFiles : List UploadedFile :=
  [⟨"a.jpg", 5, .success ["a.png"]⟩, ⟨"b.txt", 5, .failure "boom"⟩]

/-- A small PDF that converts to one page. -/
def c5SmallA : UploadedFile := ⟨"a.pdf", 10, .success ["a_page_001.png"]⟩

/-- A PDF one byte over the per-file size limit. -/
def c5Big : UploadedFile := ⟨"big.pdf", MAX_FILE_SIZE + 1, .success ["never.png"]⟩

/-- A small PDF whose conversion raises. -/
def c5SmallB : UploadedFile := ⟨"b.pdf", 10, .failure "bad pdf"⟩

/-- A converted root with one session holding two PNG files and a
subdirectory. -/
def c7Root : ConvertedRoot :=
  ⟨[("abc123def456", [⟨"a.png", true⟩, ⟨"b.png", true⟩, ⟨"sub", false⟩])], []⟩

/-! ## Registry lookup lemmas -/

lemma convertersGet_jpg (t : String) :
    convertersGet ("jpg", t) = if t = "png" then some .jpgToPng else none := by
  simp [convertersGet, Prod.mk.injEq]

lemma convertersGet_jpeg (t : String) :
    convertersGet ("jpeg", t) = if t = "png" then some .jpgToPng else none := by
  simp [convertersGet, Prod.mk.injEq]

lemma convertersGet_tiff (t : String) :
    convertersGet ("tiff", t) = if t = "png" then some .tiffToPng else none := by
  simp [convertersGet, Prod.mk.injEq]

lemma convertersGet_tif (t : String) :
    convertersGet ("tif", t) = if t = "png" then some .tiffToPng else none := by
  simp [convertersGet, Prod.mk.injEq]

/-- C4: conversion lookup is extensionally the bidirectional-synonym lookup
of the spec — for every source/target pair, the code's lookup (exact entry
first, then the alternate-extension fallback) returns exactly what
resolving synonyms in both directions before reporting not-found returns;
every supported conversion identifier parses and resolves to a converter;
and `jpg-to-png` and `jpeg-to-png` resolve to the same function. -/
theorem c4_synonym_resolution :
    (∀ f t, lookupConverter f t = lookupConverterSpec f t) ∧
    (CONVERSION_OPTIONS.all (fun o =>
      ((parseConversionId o.id).bind fun p => lookupConverter p.1 p.2).isSome) = true) ∧
    lookupConverter "jpg" "png" = lookupConverter "jpeg" "png" ∧
    lookupConverter "jpg" "png" = some .jpgToPng := by
  refine ⟨?_, by decide, by decide, by decide⟩
  intro f t
  unfold lookupConverter lookupConverterSpec synonymOf
  cases h : convertersGet (f, t) with
  | some c => rfl
  | none =>
    by_cases h1 : f = "jpg"
    · subst h1; simp
    · by_cases h2 : f = "jpeg"
      · subst h2
        rw [convertersGet_jpeg] at h
        by_cases ht : t = "png"
        · rw [if_pos ht] at h; exact absurd h (by simp)
        · simp [convertersGet_jpg, ht]
      · by_cases h3 : f = "tiff"
        · subst h3; simp
        · by_cases h4 : f = "tif"
          · subst h4
            rw [convertersGet_tif] at h
            by_cases ht : t = "png"
            · rw [if_pos ht] at h; exact absurd h (by simp)
            · simp [convertersGet_tiff, ht]
          · simp [h1, h2, h3, h4]

/-! ## Pipeline lemmas -/

lemma convert_files_ok {cid : String} {files : List UploadedFile} {out : FileOutcomes}
    (h : convert_files cid files = .ok out) :
    out = processFiles (get_accepted_extensions (pyStrip cid)) files := by
  simp only [convert_files] at h
  repeat' split at h
  all_goals first
    | exact (Except.noConfusion h)
    | (injection h with h₀; exact h₀.symm)

lemma processFiles_count (exts : List String) :
    ∀ files : List UploadedFile,
      (∀ f ∈ files, ∀ outs, f.outcome = .success outs → outs.length = 1) →
      (processFiles exts files).results.length + (processFiles exts files).errors.length
        = (files.filter (fun f => f.filename ≠ "")).length := by
  intro files
  induction files with
  | nil => intro _; rfl
  | cons f fs ih =>
    intro hone
    have hrest := ih (fun g hg => hone g (List.mem_cons_of_mem _ hg))
    rw [← List.countP_eq_length_filter] at hrest ⊢
    rw [List.countP_cons]
    simp only [ne_eq, decide_not] at hrest ⊢
    simp only [processFiles, FileOutcomes.append, List.length_append]
    by_cases hname : f.filename = ""
    · simp [stepFile, hname, hrest]
    · by_cases hext : extensionRejected exts (extOf f.filename) = true
      · simp [stepFile, hname, hext]
        omega
      · by_cases hsize : f.size > MAX_FILE_SIZE
        · simp [stepFile, hname, hext, hsize]
          omega
        · cases houtcome : f.outcome with
          | success outs =>
            have h1 : outs.length = 1 := hone f (List.mem_cons_self _ _) outs houtcome
            simp [stepFile, hname, hext, hsize, houtcome, h1]
            omega
          | failure msg =>
            simp [stepFile, hname, hext, hsize, houtcome]
            omega

lemma FileOutcomes.append_assoc (a b c : FileOutcomes) :
    (a.append b).append c = a.append (b.append c) := by
  simp [FileOutcomes.append, List.append_assoc]

lemma processFiles_append (exts : List String) (l1 l2 : List UploadedFile) :
    processFiles exts (l1 ++ l2) = (processFiles exts l1).append (processFiles exts l2) := by
  induction l1 with
  | nil => simp [processFiles, FileOutcomes.append]
  | cons f fs ih => simp [processFiles, ih, FileOutcomes.append_assoc]

/-! ## C1 — results + errors versus non-empty upload count -/

/-- C1 counterexample: a batch passing batch-level validation that holds a
single non-empty file — a PDF converting to two pages — produces
`results.length + errors.length = 2`, not `1`. -/
theorem c1_counterexample :
    (convert_files "pdf-to-png" [c1File]).map
        (fun o => o.results.length + o.errors.length) = .ok 2 ∧
    ([c1File].filter (fun f => f.filename ≠ "")).length = 1 ∧ (2 : Nat) ≠ 1 :=
  ⟨rfl, by decide, by decide⟩

/-- C1 amended: a successful conversion contributes one result entry per
output path; the stated equality therefore holds exactly when every
successful conversion in the batch produces a single output file. -/
theorem c1_amended (cid : String) (files : List UploadedFile) (out : FileOutcomes)
    (hok : convert_files cid files = .ok out)
    (hone : ∀ f ∈ files, ∀ outs, f.outcome = .success outs → outs.length = 1) :
    out.results.length + out.errors.length
      = (files.filter (fun f => f.filename ≠ "")).length := by
  rw [convert_files_ok hok]
  exact processFiles_count _ files hone

/-- C1 witness: the amended equality at a concrete two-file batch (one
single-output success, one invalid extension). -/
theorem c1_amended_witness :
    (processFiles (get_accepted_extensions (pyStrip "jpg-to-png")) c1wFiles).results.length +
      (processFiles (get_accepted_extensions (pyStrip "jpg-to-png")) c1wFiles).errors.length =
      (c1wFiles.filter (fun f => f.filename ≠ "")).length := by
  refine c1_amended "jpg-to-png" c1wFiles _ rfl ?_
  intro f hf outs houts
  fin_cases hf <;> simp_all [c1wFiles]
  cases houts
  rfl

/-! ## C3 — order of the batch-level checks -/

/-- C3 counterexample: a batch of 21 files whose filenames are all empty is
rejected as `emptyBatch`, not `tooManyFiles`, although its file count
exceeds the maximum. -/
theorem c3_counterexample :
    convert_files "pdf-to-png" (List.replicate 21 ⟨"", 0, .failure ""⟩) =
        .error .emptyBatch ∧
    (List.replicate 21 (⟨"", 0, .failure ""⟩ : UploadedFile)).length > MAX_FILES_PER_BATCH ∧
    BatchError.emptyBatch ≠ BatchError.tooManyFiles :=
  ⟨rfl, by decide, by decide⟩

/-- C3 amended: for a batch whose conversion id parses and resolves, the
no-files check runs **before** the count check: a batch with no non-empty
entries is rejected `emptyBatch` even when its count exceeds the maximum,
and only a batch with at least one non-empty entry and more than
`MAX_FILES_PER_BATCH` files is rejected `tooManyFiles`. -/
theorem c3_amended (cid : String) (files : List UploadedFile)
    (p : String × String) (c : ConverterFn)
    (h1 : ¬ pyStrip cid = "")
    (hp : parseConversionId (pyStrip cid) = some p)
    (hc : lookupConverter p.1 p.2 = some c) :
    ((files.isEmpty = true ∨ files.all (fun f => f.filename = "") = true) →
        convert_files cid files = .error .emptyBatch) ∧
    (¬(files.isEmpty = true ∨ files.all (fun f => f.filename = "") = true) →
      files.length > MAX_FILES_PER_BATCH →
        convert_files cid files = .error .tooManyFiles) := by
  obtain ⟨pf, pt⟩ := p
  constructor
  · intro hempty
    simp only [convert_files, if_neg h1, hp, hc]
    rw [if_pos hempty]
  · intro hempty hcount
    simp only [convert_files, if_neg h1, hp, hc]
    rw [if_neg hempty, if_pos hcount]

/-- C3 witness: both amended branches at concrete batches. -/
theorem c3_amended_witness :
    (convert_files "pdf-to-png" (List.replicate 21 ⟨"x.pdf", 0, .failure ""⟩) =
      .error .tooManyFiles) ∧
    (convert_files "pdf-to-png" ([] : List UploadedFile) = .error .emptyBatch) := by
  have h1 := c3_amended "pdf-to-png" (List.replicate 21 ⟨"x.pdf", 0, .failure ""⟩)
    ("pdf", "png") .pdfToPng (by decide) (by decide) (by decide)
  have h2 := c3_amended "pdf-to-png" ([] : List UploadedFile)
    ("pdf", "png") .pdfToPng (by decide) (by decide) (by decide)
  exact ⟨h1.2 (by decide) (by decide), h2.1 (by decide)⟩

/-! ## C5 — per-file errors are isolated -/

/-- C5: processing decomposes per file — the results, errors and persisted
uploads contributed by the files before and after any given file are
unchanged by that file's outcome (so no per-file error aborts its
siblings); and a file over the size limit that passed the earlier checks
contributes no result, exactly one `fileTooLarge` error, and no persisted
upload (its saved copy is deleted). -/
theorem c5_per_file_errors_isolated (exts : List String) (fs1 fs2 : List UploadedFile)
    (f : UploadedFile) :
    ((processFiles exts (fs1 ++ f :: fs2)).results =
        (processFiles exts fs1).results ++
          ((stepFile exts f).results ++ (processFiles exts fs2).results)) ∧
    ((processFiles exts (fs1 ++ f :: fs2)).errors =
        (processFiles exts fs1).errors ++
          ((stepFile exts f).errors ++ (processFiles exts fs2).errors)) ∧
    ((processFiles exts (fs1 ++ f :: fs2)).persisted =
        (processFiles exts fs1).persisted ++
          ((stepFile exts f).persisted ++ (processFiles exts fs2).persisted)) ∧
    (f.filename ≠ "" → extensionRejected exts (extOf f.filename) = false →
      f.size > MAX_FILE_SIZE →
        stepFile exts f = ⟨[], [⟨f.filename, .fileTooLarge⟩], []⟩) := by
  have hsplit : processFiles exts (fs1 ++ f :: fs2) =
      (processFiles exts fs1).append
        ((stepFile exts f).append (processFiles exts fs2)) := by
    rw [processFiles_append]; rfl
  refine ⟨by rw [hsplit]; rfl, by rw [hsplit]; rfl, by rw [hsplit]; rfl, ?_⟩
  intro hname hext hsize
  simp [stepFile, hname, hext, hsize]

/-- C5 witness: the oversized middle file of a three-file batch is reported
`fileTooLarge`, its saved copy deleted, and the error lists still decompose
around it. -/
theorem c5_witness :
    stepFile ["pdf"] c5Big = ⟨[], [⟨"big.pdf", .fileTooLarge⟩], []⟩ ∧
    (processFiles ["pdf"] ([c5SmallA] ++ c5Big :: [c5SmallB])).errors =
      (processFiles ["pdf"] [c5SmallA]).errors ++
        ((stepFile ["pdf"] c5Big).errors ++ (processFiles ["pdf"] [c5SmallB]).errors) := by
  have h := c5_per_file_errors_isolated ["pdf"] [c5SmallA] [c5SmallB] c5Big
  exact ⟨h.2.2.2 (by decide) (by decide) (by decide), h.2.1⟩

/-! ## C10 — conversion ids missing from the metadata table -/

/-- C10: `jpeg-to-png` and `tif-to-png` have no `CONVERSION_OPTIONS` entry,
so their accepted-extension list is empty; an empty list makes the
extension test vacuous, so a file with any extension whatsoever proceeds to
the converter (here: size check then conversion) rather than being rejected
with an invalid-extension error; and both ids still resolve to a registered
converter. -/
theorem c10_missing_metadata_disables_extension_check :
    get_accepted_extensions "jpeg-to-png" = [] ∧
    get_accepted_extensions "tif-to-png" = [] ∧
    (∀ ext, extensionRejected (get_accepted_extensions "jpeg-to-png") ext = false) ∧
    (∀ (size : Nat) (outs : List String),
      stepFile (get_accepted_extensions "jpeg-to-png") ⟨"weird.xyz", size, .success outs⟩ =
        if size > MAX_FILE_SIZE then ⟨[], [⟨"weird.xyz", .fileTooLarge⟩], []⟩
        else ⟨outs.map (fun o => ⟨"weird.xyz", pathName o⟩), [], ["weird.xyz"]⟩) ∧
    (parseConversionId "jpeg-to-png").bind (fun p => lookupConverter p.1 p.2) =
        some .jpgToPng ∧
    (parseConversionId "tif-to-png").bind (fun p => lookupConverter p.1 p.2) =
        some .tiffToPng := by
  refine ⟨by decide, by decide, fun ext => rfl, ?_, by decide, by decide⟩
  intro size outs
  by_cases hsize : size > MAX_FILE_SIZE
  · simp [stepFile, hsize, extensionRejected, get_accepted_extensions, CONVERSION_OPTIONS]
  · simp [stepFile, hsize, extensionRejected, get_accepted_extensions, CONVERSION_OPTIONS]

end FormatWave

namespace FormatWave

lemma length_mk_chars (l : List Char) : (String.mk l).length = l.length := rfl

lemma pad3_length (k : Nat) : (pad3 k).length = max 3 (toString k).length := by
  unfold pad3
  rw [String.length_append, length_mk_chars, List.length_replicate]
  omega

/-- C6 main. -/
theorem c6_pdf_pagination (stem : String) (numPages : Nat) :
    (convert_pdf_to_png stem numPages).length = numPages ∧
    (∀ i, i < numPages →
      (convert_pdf_to_png stem numPages)[i]? =
        some (stem ++ "_page_" ++ pad3 (i + 1) ++ ".png")) ∧
    (∀ k, (pad3 k).length = max 3 (toString k).length) ∧
    pad3 1 = "001" ∧ pad3 2 = "002" ∧ pad3 999 = "999" ∧
    pdfZoom DEFAULT_DPI = 200 / 72 := by
  refine ⟨by simp [convert_pdf_to_png], ?_, pad3_length, by decide, by decide, by decide, rfl⟩
  intro i hi
  simp [convert_pdf_to_png, pdfPageFilename, List.getElem?_map, List.getElem?_range, hi]

/-- C6 witness. -/
theorem c6_witness :
    (convert_pdf_to_png "doc" 2).length = 2 ∧
    (convert_pdf_to_png "doc" 2)[0]? = some "doc_page_001.png" ∧
    (convert_pdf_to_png "doc" 2)[1]? = some "doc_page_002.png" := by
  have h := c6_pdf_pagination "doc" 2
  exact ⟨h.1, by simpa using h.2.1 0 (by decide), by simpa using h.2.1 1 (by decide)⟩

/-- C8 counterexample. -/
theorem c8_counterexample :
    jpegNormalize ⟨.PA, false⟩ = .directRGB ∧
    jpegNormalizeSpec ⟨.PA, false⟩ = .whiteComposite ∧
    carriesTransparency ⟨.PA, false⟩ = true := by decide

/-- C8 amended. -/
theorem c8_amended (img : SrcImage) :
    (jpegNormalize img =
      if img.mode = .RGBA ∨ img.mode = .LA ∨ img.mode = .P then
        .whiteComposite else .directRGB) ∧
    (pngWebpChannels img = 4 ↔ carriesTransparency img = true) ∧
    (pngWebpChannels img = 3 ↔ carriesTransparency img = false) := by
  obtain ⟨m, t⟩ := img
  cases m <;> cases t <;> decide

end FormatWave

namespace FormatWave

lemma sweepDir_append (now : Int) (l1 l2 : List FsEntry) :
    sweepDir now (l1 ++ l2) =
      ((sweepDir now l1).1 ++ (sweepDir now l2).1,
        (sweepDir now l1).2 ++ (sweepDir now l2).2) := by
  induction l1 with
  | nil => simp [sweepDir]
  | cons e rest ih =>
    simp only [List.cons_append, sweepDir, ih]
    by_cases h1 : now - e.mtime > CLEANUP_AGE_SECONDS
    · by_cases h2 : e.deleteOk <;> simp [h1, h2, ih]
    · simp [h1, ih]

/-- C9 main. -/
theorem c9_cleanup_sweep (now : Int) (l1 l2 : List FsEntry) (e : FsEntry) :
    ((sweepDir now (l1 ++ e :: l2)).1 =
        (sweepDir now l1).1 ++ ((sweepDir now [e]).1 ++ (sweepDir now l2).1)) ∧
    ((sweepDir now (l1 ++ e :: l2)).2 =
        (sweepDir now l1).2 ++ ((sweepDir now [e]).2 ++ (sweepDir now l2).2)) ∧
    (now - e.mtime > CLEANUP_AGE_SECONDS → e.deleteOk = true →
        (sweepDir now [e]).1 = []) ∧
    (now - e.mtime > CLEANUP_AGE_SECONDS → (sweepDir now [e]).2 = [e.name]) ∧
    (¬ now - e.mtime > CLEANUP_AGE_SECONDS →
        (sweepDir now [e]).1 = [e] ∧ (sweepDir now [e]).2 = []) ∧
    (∀ (upload conv : List FsEntry) (t : Int) (ts : List Int),
      sweeper upload conv (t :: ts) =
        sweeper (sweepDir t upload).1 (sweepDir t conv).1 ts) := by
  have hsplit : sweepDir now (l1 ++ e :: l2) =
      ((sweepDir now l1).1 ++ ((sweepDir now [e]).1 ++ (sweepDir now l2).1),
        (sweepDir now l1).2 ++ ((sweepDir now [e]).2 ++ (sweepDir now l2).2)) := by
    rw [show (l1 ++ e :: l2) = l1 ++ ([e] ++ l2) by simp, sweepDir_append, sweepDir_append]
  refine ⟨by rw [hsplit], by rw [hsplit], ?_, ?_, ?_, fun _ _ _ _ => rfl⟩
  · intro hold hok
    simp [sweepDir, hold, hok]
  · intro hold
    by_cases hok : e.deleteOk <;> simp [sweepDir, hold, hok]
  · intro hnew
    simp [sweepDir, hnew]

/-- C9 witness. -/
theorem c9_witness :
    (sweepDir 4000 [(⟨"old", 0, true, true⟩ : FsEntry)]).1 = [] ∧
    (sweepDir 4000 [(⟨"old", 0, true, true⟩ : FsEntry)]).2 = ["old"] ∧
    (sweepDir 4000 [(⟨"new", 3000, false, true⟩ : FsEntry)]).1 =
      [⟨"new", 3000, false, true⟩] ∧
    (sweepDir 4000 ([⟨"stuck", 0, true, false⟩] ++
        (⟨"old", 0, true, true⟩ : FsEntry) :: [⟨"new", 3000, false, true⟩])).2 =
      (sweepDir 4000 [(⟨"stuck", 0, true, false⟩ : FsEntry)]).2 ++
        ((sweepDir 4000 [(⟨"old", 0, true, true⟩ : FsEntry)]).2 ++
          (sweepDir 4000 [(⟨"new", 3000, false, true⟩ : FsEntry)]).2) := by
  have h1 := c9_cleanup_sweep 4000 [⟨"stuck", 0, true, false⟩]
    [⟨"new", 3000, false, true⟩] ⟨"old", 0, true, true⟩
  have h2 := c9_cleanup_sweep 4000 [] [] ⟨"new", 3000, false, true⟩
  exact ⟨h1.2.2.1 (by decide) (by decide), h1.2.2.2.1 (by decide),
    (h2.2.2.2.2.1 (by decide)).1, h1.2.1⟩

end FormatWave

namespace FormatWave

/-- C7 main. -/
theorem c7_download_all (r : ConvertedRoot) (sid : String) :
    (r.findSession sid = none → download_all r sid = .error ()) ∧
    (∀ entries r1 members,
      r.findSession sid = some entries →
      download_all r sid = .ok (r1, members) →
        members = (entries.filter (fun e => e.isFile)).map (fun e => e.name) ∧
        r1.sessions = r.sessions ∧
        zipFilename sid ∈ r1.rootFiles ∧
        (zipFilename sid ∉ entries.map (fun e => e.name) → zipFilename sid ∉ members) ∧
        download_all r1 sid =
          .ok ({ r1 with
              rootFiles := zipFilename sid :: r1.rootFiles.erase (zipFilename sid) },
            members)) := by
  constructor
  · intro hnone
    simp [download_all, hnone]
  · intro entries r1 members hfind hok
    simp only [download_all, hfind] at hok
    injection hok with hok
    injection hok with hr hm
    have hsess : r1.sessions = r.sessions := by rw [← hr]
    have hroot : r1.rootFiles =
        zipFilename sid :: r.rootFiles.erase (zipFilename sid) := by rw [← hr]
    refine ⟨hm.symm, hsess, by rw [hroot]; exact List.mem_cons_self _ _, ?_, ?_⟩
    · intro hnot hmem
      apply hnot
      rw [← hm] at hmem
      obtain ⟨e, he, hename⟩ := List.mem_map.mp hmem
      exact List.mem_map.mpr ⟨e, List.mem_of_mem_filter he, hename⟩
    · have hfind1 : r1.findSession sid = some entries := by
        unfold ConvertedRoot.findSession at hfind ⊢
        rw [hsess]
        exact hfind
      simp only [download_all, hfind1]
      rw [hm]

/-- C7 witness. -/
theorem c7_witness :
    download_all c7Root "abc123def456" =
      .ok (⟨c7Root.sessions, ["FormatWave_abc123def456.zip"]⟩, ["a.png", "b.png"]) ∧
    download_all
        (⟨c7Root.sessions, ["FormatWave_abc123def456.zip"]⟩ : ConvertedRoot)
        "abc123def456" =
      .ok (⟨c7Root.sessions, ["FormatWave_abc123def456.zip"]⟩, ["a.png", "b.png"]) ∧
    download_all c7Root "nope" = .error () := by
  have h := (c7_download_all c7Root "abc123def456").2
    [⟨"a.png", true⟩, ⟨"b.png", true⟩, ⟨"sub", false⟩]
    (⟨c7Root.sessions, ["FormatWave_abc123def456.zip"]⟩ : ConvertedRoot)
    ["a.png", "b.png"] rfl rfl
  exact ⟨rfl, h.2.2.2.2, (c7_download_all c7Root "nope").1 rfl⟩

/-- C2 theorem (code-bug evaluation). -/
theorem c2_path_traversal_bug :
    servedPath [["app", "app.py"]] ".." "app.py" = some ["app", "app.py"] ∧
    insideConvertedRoot ["app", "app.py"] = false ∧
    (∀ sid fn, servedPath [] sid fn = none) := by
  refine ⟨by decide, by decide, ?_⟩
  intro sid fn
  simp [servedPath]

end FormatWave
